import Mathlib

/-!
Shallow embedding of `create_order` from `src/refactored_code_part_2.py`.

The persistent store is modelled as a list of product rows and a list of
order rows.  The Flask request body is an `Option Payload` whose fields are
`Option`-valued, mirroring key presence in the JSON object (`none` body
mirrors a falsy `request.get_json()` result).  External collaborators that
can fail are modelled by explicit fault-injection inputs (`Faults`):
`dbFail` injects a `SQLAlchemyError` raised at commit time,
`writeStock` injects a concurrent change of the target row's stock between
the `SELECT ... FOR UPDATE` read and the conditional `UPDATE` (the race the
code's second check guards against), and `publishFails` injects an
exception raised by `publish_event`.  `generate_unique_id` and `db.now()`
are modelled by the explicit inputs `newId` and `now`.

The `with db.transaction()` block is all-or-nothing: any exception raised
inside it rolls the store back to its pre-transaction state before
propagating to the `except` handlers.
-/

/-- A row of the `products` table: `products(id, stock, price)`. -/
structure Product where
  id : Nat
  stock : Int
  price : Int
  deriving DecidableEq, Repr

/-- A row of the `orders` table:
`orders(id, user_id, product_id, quantity, total_price, status, created_at)`. -/
structure Order where
  id : Nat
  user_id : Nat
  product_id : Nat
  quantity : Int
  total_price : Int
  status : String
  created_at : Nat
  deriving DecidableEq, Repr

/-- The persistent store the transaction runs against. -/
structure Store where
  products : List Product
  orders : List Order
  deriving DecidableEq, Repr

/-- The parsed JSON body of the request; each field is `some` exactly when
the corresponding key is present in the JSON object. -/
structure Payload where
  productId : Option Nat
  quantity : Option Int
  userId : Option Nat
  deriving DecidableEq, Repr

/-- Fault injection for the external collaborators: a `SQLAlchemyError`
raised at commit, a concurrent overwrite of the target row's stock seen by
the conditional `UPDATE`, and an exception raised by `publish_event`. -/
structure Faults where
  dbFail : Bool
  writeStock : Option Int
  publishFails : Bool
  deriving DecidableEq, Repr

/-- No injected faults: the normal, serialized execution. -/
def noFaults : Faults := ⟨false, none, false⟩

/-- The payloads of the `BadRequest` exceptions the handler turns into 400
responses; each constructor carries the data interpolated into the python
message string. -/
inductive BadReqKind where
  | missingOrderData
  | missingRequiredFields
  | productNotFound (product_id : Nat)
  | insufficientStock (product_id : Nat) (available : Int) (requested : Int)
  | inventoryUpdateFailed
  deriving DecidableEq, Repr

/-- The message string carried by each `BadRequest`, as built by the
python f-strings. -/
def badReqMessage : BadReqKind → String
  | .missingOrderData => "Missing order data"
  | .missingRequiredFields =>
      "Missing required fields: ['productId', 'quantity', 'userId']"
  | .productNotFound pid =>
      "Product with ID " ++ toString pid ++ " not found"
  | .insufficientStock pid avail req =>
      "Insufficient stock for product " ++ toString pid ++ ". Available: "
        ++ toString avail ++ ", Requested: " ++ toString req
  | .inventoryUpdateFailed => "Inventory update failed - stock may have changed"

/-- The HTTP response returned by `create_order`: one constructor per
`return` statement of the function. -/
inductive Response where
  | created (orderId : Nat) (status : String) (message : String)
  | clientError (e : BadReqKind)
  | dbError
  | unexpectedError
  deriving DecidableEq, Repr

/-- The HTTP status code attached to each response. -/
def statusCode : Response → Nat
  | .created _ _ _ => 201
  | .clientError _ => 400
  | .dbError => 500
  | .unexpectedError => 500

/-- The `error` field of the JSON body, when the response is an error. -/
def errorBody : Response → Option String
  | .created _ _ _ => none
  | .clientError e => some (badReqMessage e)
  | .dbError => some "Database error occurred during order processing"
  | .unexpectedError => some "Order processing failed"

/-- The `SELECT id, stock, price FROM products WHERE id = %s FOR UPDATE`
read: first row with the given id. -/
def findProduct (products : List Product) (pid : Nat) : Option Product :=
  products.find? (fun p => p.id == pid)

/-- The target row's stock as seen by the conditional `UPDATE`: the value
read under lock unless a concurrent writer changed it. -/
def setStock (products : List Product) (pid : Nat) (v : Int) : List Product :=
  products.map (fun p => if p.id = pid then { p with stock := v } else p)

/-- `UPDATE products SET stock = stock - %s WHERE id = %s AND stock >= %s`:
the updated table together with the number of affected rows. -/
def updateStock (products : List Product) (pid : Nat) (q : Int) :
    List Product × Nat :=
  (products.map (fun p =>
      if p.id = pid ∧ q ≤ p.stock then { p with stock := p.stock - q } else p),
   products.countP (fun p => p.id == pid && decide (q ≤ p.stock)))

/-- Shallow embedding of `create_order` (src/refactored_code_part_2.py,
lines 9-97).  Returns the store after the request together with the HTTP
response.  Line references in the comments are to the python source. -/
def create_order (store : Store) (body : Option Payload) (newId : Nat)
    (now : Nat) (faults : Faults) : Store × Response :=
  match body with
  | none =>
      -- lines 14-15: falsy body raises BadRequest("Missing order data")
      (store, .clientError .missingOrderData)
  | some order_data =>
      -- lines 18-20: all of productId, quantity, userId must be present
      if order_data.productId.isSome ∧ order_data.quantity.isSome
          ∧ order_data.userId.isSome then
        -- lines 22-23: the .get default of 1 is dead after the field check
        let product_id := order_data.productId.getD 0
        let quantity := order_data.quantity.getD 1
        -- line 28: SELECT ... FOR UPDATE
        match findProduct store.products product_id with
        | none =>
            -- lines 33-34, rolled back by the with-block
            (store, .clientError (.productNotFound product_id))
        | some product =>
            if product.stock < quantity then
              -- lines 36-38, rolled back by the with-block
              (store,
               .clientError
                 (.insufficientStock product_id product.stock quantity))
            else
              -- lines 41-42
              let order_id := newId
              let total_price := product.price * quantity
              -- lines 45-56: INSERT INTO orders
              let newOrder : Order :=
                ⟨order_id, order_data.userId.getD 0, product_id, quantity,
                 total_price, "created", now⟩
              -- lines 59-62: conditional decrement against the write-time row
              let writeProducts :=
                match faults.writeStock with
                | none => store.products
                | some v => setStock store.products product_id v
              let upd := updateStock writeProducts product_id quantity
              if upd.2 = 0 then
                -- lines 64-67, rolled back by the with-block
                (store, .clientError .inventoryUpdateFailed)
              else if faults.dbFail then
                -- line 69/89: commit raises SQLAlchemyError, rolled back
                (store, .dbError)
              else
                -- commit: both writes become visible together
                let committed : Store :=
                  ⟨upd.1, store.orders ++ [newOrder]⟩
                if faults.publishFails then
                  -- lines 72-76 raise, caught by the generic handler (94-97)
                  (committed, .unexpectedError)
                else
                  -- lines 78-82
                  (committed,
                   .created order_id "created" "Order successfully created")
      else
        (store, .clientError .missingRequiredFields)

/-- The failure outcomes that originate inside the transaction block:
product not found, insufficient stock, conditional decrement affecting zero
rows, and a store-level fault at commit. -/
def txnFailure : Response → Prop
  | .clientError (.productNotFound _) => True
  | .clientError (.insufficientStock _ _ _) => True
  | .clientError .inventoryUpdateFailed => True
  | .dbError => True
  | _ => False

instance : DecidablePred txnFailure := fun r => by
  unfold txnFailure
  cases r with
  | clientError e => cases e <;> infer_instance
  | created oid st m => infer_instance
  | dbError => infer_instance
  | unexpectedError => infer_instance

/-- Whether a response is the success response (HTTP 201). -/
def isSuccess : Response → Bool
  | .created _ _ _ => true
  | _ => false

/-- Number of successful responses in a list. -/
def countSuccess (rs : List Response) : Nat := rs.countP isSuccess

/-- N requests against the same product, serialized (as the row lock
serializes them), each with quantity `q`, user `uid` and a fresh order id;
returns the final store and the list of responses. -/
def runN (pid uid : Nat) (q : Int) : Nat → Store → Store × List Response
  | 0, store => (store, [])
  | n + 1, store =>
      let r := create_order store (some ⟨some pid, some q, some uid⟩) n 0 noFaults
      let rest := runN pid uid q n r.1
      (rest.1, r.2 :: rest.2)

/-! ### Helper lemmas about the store operations -/

theorem updateStock_nonneg (l : List Product) (pid : Nat) (q : Int)
    (h : ∀ p ∈ l, 0 ≤ p.stock ∨ (p.id = pid ∧ q ≤ p.stock)) :
    ∀ p' ∈ (updateStock l pid q).1, 0 ≤ p'.stock := by
  intro p' hp'
  simp only [updateStock, List.mem_map] at hp'
  obtain ⟨p, hp, rfl⟩ := hp'
  by_cases hg : p.id = pid ∧ q ≤ p.stock
  · rw [if_pos hg]
    have h2 := hg.2
    show 0 ≤ p.stock - q
    omega
  · rw [if_neg hg]
    rcases h p hp with h0 | hc
    · exact h0
    · exact absurd hc hg

theorem updateStock_count_pos (l : List Product) (pid : Nat) (q : Int)
    (h : (updateStock l pid q).2 ≠ 0) :
    ∃ p ∈ l, p.id = pid ∧ q ≤ p.stock := by
  simp only [updateStock] at h
  obtain ⟨p, hp, hpred⟩ := List.countP_pos_iff.mp (Nat.pos_of_ne_zero h)
  simp only [Bool.and_eq_true, beq_iff_eq, decide_eq_true_eq] at hpred
  exact ⟨p, hp, hpred⟩

theorem mem_setStock (l : List Product) (pid : Nat) (v : Int) (p' : Product)
    (h : p' ∈ setStock l pid v) :
    (p'.id = pid ∧ p'.stock = v) ∨ (¬ p'.id = pid ∧ p' ∈ l) := by
  simp only [setStock, List.mem_map] at h
  obtain ⟨p, hp, rfl⟩ := h
  by_cases hid : p.id = pid
  · left
    rw [if_pos hid]
    exact ⟨hid, rfl⟩
  · right
    rw [if_neg hid]
    exact ⟨hid, hp⟩

theorem updateStock_setStock_count_zero (l : List Product) (pid : Nat) (q v : Int)
    (hv : v < q) : (updateStock (setStock l pid v) pid q).2 = 0 := by
  simp only [updateStock, setStock]
  rw [List.countP_eq_zero]
  intro a ha
  simp only [List.mem_map] at ha
  obtain ⟨p, hp, rfl⟩ := ha
  by_cases hid : p.id = pid
  · rw [if_pos hid]
    simp only [Bool.and_eq_true, beq_iff_eq, decide_eq_true_eq, not_and]
    intro _
    show ¬ q ≤ v
    omega
  · rw [if_neg hid]
    simp [hid]

theorem findProduct_updateStock (l : List Product) (pid : Nat) (q : Int) (p : Product)
    (hfind : findProduct l pid = some p) (hq : q ≤ p.stock) :
    findProduct (updateStock l pid q).1 pid = some { p with stock := p.stock - q } := by
  induction l with
  | nil => simp [findProduct] at hfind
  | cons a l ih =>
    by_cases h : a.id = pid
    · have hb : (a.id == pid) = true := by simp [h]
      simp only [findProduct, List.find?_cons, hb, cond_true, Option.some.injEq] at hfind
      subst hfind
      simp only [updateStock, List.map_cons, findProduct]
      rw [if_pos ⟨h, hq⟩]
      have hb2 : (({ a with stock := a.stock - q } : Product).id == pid) = true := by simp [h]
      simp [List.find?_cons, hb2]
    · have hb : (a.id == pid) = false := by simp [h]
      simp only [findProduct, List.find?_cons, hb, cond_false] at hfind
      have hg : ¬ (a.id = pid ∧ q ≤ a.stock) := fun hc => h hc.1
      simp only [updateStock, List.map_cons, findProduct] at ih ⊢
      rw [if_neg hg]
      rw [List.find?_cons, hb]
      exact ih hfind

/-- On the commit path the updated products table keeps every stock
non-negative: the conditional write only fires when the write-time stock
covers the quantity, and rows it does not fire on are unchanged. -/
theorem commit_stock_nonneg (products : List Product) (pid : Nat) (q : Int)
    (ws : Option Int)
    (hpos : ∀ p ∈ products, 0 ≤ p.stock)
    (hcnt : (updateStock
        (match ws with
         | none => products
         | some v => setStock products pid v) pid q).2 ≠ 0) :
    ∀ p' ∈ (updateStock
        (match ws with
         | none => products
         | some v => setStock products pid v) pid q).1, 0 ≤ p'.stock := by
  cases ws with
  | none =>
      exact updateStock_nonneg _ _ _ (fun p hp => Or.inl (hpos p hp))
  | some v =>
      obtain ⟨p0, hp0, hid0, hq0⟩ := updateStock_count_pos _ _ _ hcnt
      have hqv : q ≤ v := by
        rcases mem_setStock _ _ _ _ hp0 with ⟨_, hst⟩ | ⟨hnid, _⟩
        · rw [← hst]
          exact hq0
        · exact absurd hid0 hnid
      apply updateStock_nonneg
      intro p hp
      rcases mem_setStock _ _ _ _ hp with ⟨hid, hst⟩ | ⟨_, hmem⟩
      · refine Or.inr ⟨hid, ?_⟩
        rw [hst]
        exact hqv
      · exact Or.inl (hpos p hmem)

/-! ### The claims -/

/-- Claim C2: starting from any store whose product stocks are all
non-negative, after `create_order` every product stock is still
non-negative; and whenever no order was committed (the unit of work did not
commit) the products table is untouched, so stock is only mutated inside
the atomic unit of work. -/
theorem create_order_stock_nonneg (store : Store) (body : Option Payload)
    (newId now : Nat) (faults : Faults)
    (hpos : ∀ p ∈ store.products, 0 ≤ p.stock) :
    (∀ p' ∈ (create_order store body newId now faults).1.products, 0 ≤ p'.stock)
    ∧ ((create_order store body newId now faults).1.orders = store.orders →
        (create_order store body newId now faults).1.products = store.products) := by
  cases body with
  | none => exact ⟨hpos, fun _ => rfl⟩
  | some od =>
    simp only [create_order]
    split
    case isFalse hreq => exact ⟨hpos, fun _ => rfl⟩
    case isTrue hreq =>
      split
      case h_1 => exact ⟨hpos, fun _ => rfl⟩
      case h_2 product hf =>
        split
        case isTrue hstock => exact ⟨hpos, fun _ => rfl⟩
        case isFalse hstock =>
          split
          case isTrue hcnt => exact ⟨hpos, fun _ => rfl⟩
          case isFalse hcnt =>
            split
            case isTrue hdb => exact ⟨hpos, fun _ => rfl⟩
            case isFalse hdb =>
              have horders : ∀ o : Order, store.orders ++ [o] = store.orders → False := by
                intro o h
                have := congrArg List.length h
                simp at this
              split
              · exact ⟨commit_stock_nonneg store.products _ _ faults.writeStock hpos hcnt,
                       fun h => absurd h (fun h => horders _ h)⟩
              · exact ⟨commit_stock_nonneg store.products _ _ faults.writeStock hpos hcnt,
                       fun h => absurd h (fun h => horders _ h)⟩

/-- Claim C2 witness: a concrete insufficient-stock request leaves every
stock non-negative and the products table untouched. -/
theorem create_order_stock_nonneg_witness :
    (∀ p' ∈ (create_order ⟨[⟨1, 2, 10⟩], []⟩
        (some ⟨some 1, some 5, some 2⟩) 42 0 noFaults).1.products, 0 ≤ p'.stock)
    ∧ (create_order ⟨[⟨1, 2, 10⟩], []⟩
        (some ⟨some 1, some 5, some 2⟩) 42 0 noFaults).1.products = [⟨1, 2, 10⟩] := by
  have h := create_order_stock_nonneg ⟨[⟨1, 2, 10⟩], []⟩
    (some ⟨some 1, some 5, some 2⟩) 42 0 noFaults (by decide)
  exact ⟨h.1, h.2 (by decide)⟩

/-- Claim C1: a request that fails at any step inside the transaction
(product not found, insufficient stock, conditional decrement affecting
zero rows, or a store-level fault at commit) leaves the store unchanged;
and whenever an Order record is committed (an order was appended), the
referenced product's stock has been decremented by exactly that order's
quantity within the same unit of work (stated with no concurrent
interference on the row, which is what the lock guarantees). -/
theorem create_order_atomicity (store : Store) (body : Option Payload)
    (newId now : Nat) (faults : Faults) :
    (txnFailure (create_order store body newId now faults).2 →
        (create_order store body newId now faults).1 = store)
    ∧ (faults.writeStock = none →
        ∀ o : Order,
          (create_order store body newId now faults).1.orders = store.orders ++ [o] →
          ∃ p : Product,
            findProduct store.products o.product_id = some p ∧
            findProduct (create_order store body newId now faults).1.products o.product_id
              = some { p with stock := p.stock - o.quantity }) := by
  have horders : ∀ o : Order, ¬ store.orders = store.orders ++ [o] := by
    intro o h
    have := congrArg List.length h
    simp at this
  cases body with
  | none => exact ⟨fun _ => rfl, fun _ o h => absurd h (horders o)⟩
  | some od =>
    simp only [create_order]
    split
    case isFalse hreq => exact ⟨fun _ => rfl, fun _ o h => absurd h (horders o)⟩
    case isTrue hreq =>
      split
      case h_1 => exact ⟨fun _ => rfl, fun _ o h => absurd h (horders o)⟩
      case h_2 product hf =>
        split
        case isTrue hstock => exact ⟨fun _ => rfl, fun _ o h => absurd h (horders o)⟩
        case isFalse hstock =>
          split
          case isTrue hcnt => exact ⟨fun _ => rfl, fun _ o h => absurd h (horders o)⟩
          case isFalse hcnt =>
            split
            case isTrue hdb => exact ⟨fun _ => rfl, fun _ o h => absurd h (horders o)⟩
            case isFalse hdb =>
              have hcommit : ∀ o : Order,
                  store.orders ++
                      [({ id := newId, user_id := od.userId.getD 0,
                          product_id := od.productId.getD 0,
                          quantity := od.quantity.getD 1,
                          total_price := product.price * od.quantity.getD 1,
                          status := "created", created_at := now } : Order)]
                    = store.orders ++ [o] →
                  o = { id := newId, user_id := od.userId.getD 0,
                        product_id := od.productId.getD 0,
                        quantity := od.quantity.getD 1,
                        total_price := product.price * od.quantity.getD 1,
                        status := "created", created_at := now } := by
                intro o h
                have h2 := List.append_cancel_left h
                simp only [List.cons.injEq, and_true] at h2
                exact h2.symm
              have hmain : faults.writeStock = none →
                  ∀ o : Order,
                    store.orders ++
                        [({ id := newId, user_id := od.userId.getD 0,
                            product_id := od.productId.getD 0,
                            quantity := od.quantity.getD 1,
                            total_price := product.price * od.quantity.getD 1,
                            status := "created", created_at := now } : Order)]
                      = store.orders ++ [o] →
                    ∃ p : Product,
                      findProduct store.products o.product_id = some p ∧
                      findProduct (updateStock
                          (match faults.writeStock with
                           | none => store.products
                           | some v => setStock store.products (od.productId.getD 0) v)
                          (od.productId.getD 0) (od.quantity.getD 1)).1 o.product_id
                        = some { p with stock := p.stock - o.quantity } := by
                intro hws o h
                have ho := hcommit o h
                subst ho
                rw [hws]
                exact ⟨product, hf,
                  findProduct_updateStock store.products _ _ product hf (not_lt.mp hstock)⟩
              split
              · exact ⟨fun h => h.elim, hmain⟩
              · exact ⟨fun h => h.elim, hmain⟩

/-- Claim C1 witness: at a concrete failing request (insufficient stock)
the store is unchanged, and at a concrete committing request the stock of
the ordered product is decremented by the order's quantity. -/
theorem create_order_atomicity_witness :
    (create_order ⟨[⟨1, 2, 10⟩], []⟩ (some ⟨some 1, some 5, some 2⟩) 42 0 noFaults).1
      = ⟨[⟨1, 2, 10⟩], []⟩
    ∧ ∃ p : Product,
        findProduct [⟨1, 5, 10⟩] 1 = some p ∧
        findProduct (create_order ⟨[⟨1, 5, 10⟩], []⟩
            (some ⟨some 1, some 3, some 2⟩) 42 0 noFaults).1.products 1
          = some { p with stock := p.stock - 3 } := by
  constructor
  · exact (create_order_atomicity ⟨[⟨1, 2, 10⟩], []⟩
      (some ⟨some 1, some 5, some 2⟩) 42 0 noFaults).1 (by decide)
  · exact (create_order_atomicity ⟨[⟨1, 5, 10⟩], []⟩
      (some ⟨some 1, some 3, some 2⟩) 42 0 noFaults).2 rfl
      ⟨42, 2, 1, 3, 30, "created", 0⟩ (by decide)

/-- One serialized request against a single-product store either fails with
insufficient stock (store unchanged) or commits, decrementing the stock and
appending the order. -/
theorem create_order_single (pid uid price newId now : Nat) (s : Nat) (q : Int)
    (os : List Order) :
    create_order ⟨[⟨pid, (s : Int), (price : Int)⟩], os⟩
        (some ⟨some pid, some q, some uid⟩) newId now noFaults
      = if (s : Int) < q then
          (⟨[⟨pid, (s : Int), (price : Int)⟩], os⟩,
           .clientError (.insufficientStock pid (s : Int) q))
        else
          (⟨[⟨pid, (s : Int) - q, (price : Int)⟩],
             os ++ [⟨newId, uid, pid, q, (price : Int) * q, "created", now⟩]⟩,
           .created newId "created" "Order successfully created") := by
  by_cases h : (s : Int) < q
  · rw [if_pos h]
    simp [create_order, findProduct, h]
  · rw [if_neg h]
    have hq : q ≤ (s : Int) := not_lt.mp h
    simp [create_order, findProduct, updateStock, noFaults, h, hq]


/-- Invariant for `runN` on a single-product store: the number of successes
is `min n (s / Q)`, every response is a success or an insufficient-stock
error, and the final stock is the initial stock minus `Q` times the number
of successes. -/
theorem runN_single (pid uid price Q : Nat) (hQ : 0 < Q) (n : Nat) :
    ∀ (s : Nat) (os : List Order),
      countSuccess (runN pid uid (Q : Int) n ⟨[⟨pid, (s : Int), (price : Int)⟩], os⟩).2
          = min n (s / Q)
      ∧ (∀ r ∈ (runN pid uid (Q : Int) n ⟨[⟨pid, (s : Int), (price : Int)⟩], os⟩).2,
            isSuccess r = true ∨ ∃ a b, r = .clientError (.insufficientStock pid a b))
      ∧ (runN pid uid (Q : Int) n ⟨[⟨pid, (s : Int), (price : Int)⟩], os⟩).1.products
          = [⟨pid, ((s - Q * min n (s / Q) : Nat) : Int), (price : Int)⟩] := by
  induction n with
  | zero =>
      intro s os
      simp [runN, countSuccess]
  | succ n ih =>
      intro s os
      simp only [runN, create_order_single]
      by_cases h : (s : Int) < (Q : Int)
      · rw [if_pos h]
        have hlt : s < Q := by exact_mod_cast h
        have hdiv : s / Q = 0 := Nat.div_eq_of_lt hlt
        obtain ⟨ih1, ih2, ih3⟩ := ih s os
        refine ⟨?_, ?_, ?_⟩
        · simp only [countSuccess, List.countP_cons, isSuccess] at ih1 ⊢
          simp [ih1, hdiv]
        · intro r hr
          simp only [List.mem_cons] at hr
          rcases hr with rfl | hr
          · exact Or.inr ⟨(s : Int), (Q : Int), rfl⟩
          · exact ih2 r hr
        · simp only [ih3, hdiv, Nat.min_zero]
      · rw [if_neg h]
        have hle : Q ≤ s := by
          have h2 := not_lt.mp h
          exact_mod_cast h2
        have hcast : (s : Int) - (Q : Int) = ((s - Q : Nat) : Int) := by omega
        rw [hcast]
        obtain ⟨ih1, ih2, ih3⟩ := ih (s - Q)
          (os ++ [⟨n, uid, pid, (Q : Int), (price : Int) * (Q : Int), "created", 0⟩])
        have hdiv : s / Q = (s - Q) / Q + 1 := Nat.div_eq_sub_div hQ hle
        refine ⟨?_, ?_, ?_⟩
        · simp only [countSuccess, List.countP_cons] at ih1 ⊢
          rw [hdiv, Nat.succ_min_succ]
          simp [isSuccess, ih1]
        · intro r hr
          simp only [List.mem_cons] at hr
          rcases hr with rfl | hr
          · exact Or.inl rfl
          · exact ih2 r hr
        · have harith : ∀ X : Nat, s - Q - X = s - (X + Q) := by omega
          rw [ih3, hdiv, Nat.succ_min_succ, Nat.mul_succ, ← harith]

/-- Claim C3: N serialized requests (the row lock serializes concurrent
requests) for the same product, each of quantity Q, against initial stock
S with no other writers: exactly S / Q (floor division) succeed, every
other request fails with `InsufficientStockError` or
`ConcurrencyConflictError`, and the final stock is S - Q * (S / Q). -/
theorem create_order_serialization (pid uid price S Q N : Nat) (hQ : 0 < Q)
    (hN : S / Q ≤ N) :
    countSuccess (runN pid uid (Q : Int) N ⟨[⟨pid, (S : Int), (price : Int)⟩], []⟩).2
        = S / Q
    ∧ (∀ r ∈ (runN pid uid (Q : Int) N ⟨[⟨pid, (S : Int), (price : Int)⟩], []⟩).2,
          isSuccess r = true
          ∨ (∃ a b, r = .clientError (.insufficientStock pid a b))
          ∨ r = .clientError .inventoryUpdateFailed)
    ∧ (runN pid uid (Q : Int) N ⟨[⟨pid, (S : Int), (price : Int)⟩], []⟩).1.products
        = [⟨pid, (S : Int) - (Q : Int) * ((S / Q : Nat) : Int), (price : Int)⟩] := by
  obtain ⟨h1, h2, h3⟩ := runN_single pid uid price Q hQ N S []
  have hmin : min N (S / Q) = S / Q := Nat.min_eq_right hN
  refine ⟨?_, ?_, ?_⟩
  · rw [h1, hmin]
  · intro r hr
    rcases h2 r hr with hs | ⟨a, b, rfl⟩
    · exact Or.inl hs
    · exact Or.inr (Or.inl ⟨a, b, rfl⟩)
  · rw [h3, hmin]
    have hle : Q * (S / Q) ≤ S := by
      rw [Nat.mul_comm]
      exact Nat.div_mul_le_self S Q
    have hc : ((S - Q * (S / Q) : Nat) : Int)
        = (S : Int) - (Q : Int) * ((S / Q : Nat) : Int) := by
      rw [Nat.cast_sub hle, Nat.cast_mul]
    rw [hc]

/-- Claim C3 witness: stock 5, quantity 3, two requests: exactly one
succeeds and the final stock is 2. -/
theorem create_order_serialization_witness :
    countSuccess (runN 1 2 ((3 : Nat) : Int) 2
        ⟨[⟨1, ((5 : Nat) : Int), ((10 : Nat) : Int)⟩], []⟩).2 = 5 / 3
    ∧ (runN 1 2 ((3 : Nat) : Int) 2
        ⟨[⟨1, ((5 : Nat) : Int), ((10 : Nat) : Int)⟩], []⟩).1.products
        = [⟨1, ((5 : Nat) : Int) - ((3 : Nat) : Int) * ((5 / 3 : Nat) : Int),
            ((10 : Nat) : Int)⟩] := by
  refine ⟨?_, ?_⟩
  · exact (create_order_serialization 1 2 10 5 3 2 (by decide) (by decide)).1
  · exact (create_order_serialization 1 2 10 5 3 2 (by decide) (by decide)).2.2

/-- Claim C4: the code rejects a request that omits the quantity field.
The payload carries productId and userId but no quantity; the code returns
the 400 missing-required-fields response instead of treating the request
as quantity = 1, because line 18 lists quantity among the required fields,
making the default of 1 at line 23 unreachable. -/
theorem create_order_missing_quantity_rejected :
    create_order ⟨[⟨1, 5, 10⟩], []⟩ (some ⟨some 1, none, some 2⟩) 42 0 noFaults
      = (⟨[⟨1, 5, 10⟩], []⟩, .clientError .missingRequiredFields)
    ∧ statusCode (.clientError .missingRequiredFields) = 400 := by
  decide

/-- Claim C5: the code accepts a quantity that is not a positive integer.
With stock 5 and quantity -3 the request commits: the response is the 201
success response, an order with quantity -3 and total price -30 is
recorded, and the stock rises from 5 to 8 (the conditional decrement adds
3), with no `ValidationError`. -/
theorem create_order_nonpositive_quantity_accepted :
    create_order ⟨[⟨1, 5, 10⟩], []⟩ (some ⟨some 1, some (-3), some 2⟩) 42 0 noFaults
      = (⟨[⟨1, 8, 10⟩], [⟨42, 2, 1, -3, -30, "created", 0⟩]⟩,
         .created 42 "created" "Order successfully created")
    ∧ create_order ⟨[⟨1, 5, 10⟩], []⟩ (some ⟨some 1, some 0, some 2⟩) 42 0 noFaults
      = (⟨[⟨1, 5, 10⟩], [⟨42, 2, 1, 0, 0, "created", 0⟩]⟩,
         .created 42 "created" "Order successfully created") := by
  decide

/-- Claim C6 counterexample: with the transaction committed and
`publish_event` raising, the caller does not get the success response for
the committed order: the order is in the store and the stock is
decremented, yet the response is the generic 500 `unexpectedError`,
because the raise is caught by the generic handler at lines 94-97. -/
theorem create_order_publish_failure_changes_response :
    (create_order ⟨[⟨1, 5, 10⟩], []⟩ (some ⟨some 1, some 3, some 2⟩) 42 0
        ⟨false, none, true⟩).1
      = ⟨[⟨1, 2, 10⟩], [⟨42, 2, 1, 3, 30, "created", 0⟩]⟩
    ∧ (create_order ⟨[⟨1, 5, 10⟩], []⟩ (some ⟨some 1, some 3, some 2⟩) 42 0
        ⟨false, none, true⟩).2 = .unexpectedError
    ∧ statusCode .unexpectedError = 500 := by
  decide

/-- Claim C6 as amended: when `publish_event` raises, the committed order
and stock decrement persist (the transaction is not rolled back), but the
HTTP-visible outcome is the generic 500 `unexpectedError` response, never
the 201 success response. -/
theorem create_order_publish_failure_behavior (store : Store)
    (body : Option Payload) (newId now : Nat) (faults : Faults)
    (hpf : faults.publishFails = true) :
    (∀ oid st m, (create_order store body newId now faults).2 ≠ .created oid st m)
    ∧ ((create_order store body newId now faults).2 = .unexpectedError →
        statusCode (create_order store body newId now faults).2 = 500
        ∧ ∃ o : Order,
            (create_order store body newId now faults).1.orders = store.orders ++ [o]) := by
  cases body with
  | none => exact ⟨fun _ _ _ h => Response.noConfusion h, fun h => Response.noConfusion h⟩
  | some od =>
    simp only [create_order]
    split
    case isFalse hreq => exact ⟨fun _ _ _ h => Response.noConfusion h, fun h => Response.noConfusion h⟩
    case isTrue hreq =>
      split
      case h_1 => exact ⟨fun _ _ _ h => Response.noConfusion h, fun h => Response.noConfusion h⟩
      case h_2 product hf =>
        split
        case isTrue hstock => exact ⟨fun _ _ _ h => Response.noConfusion h, fun h => Response.noConfusion h⟩
        case isFalse hstock =>
          split
          case isTrue hcnt => exact ⟨fun _ _ _ h => Response.noConfusion h, fun h => Response.noConfusion h⟩
          case isFalse hcnt =>
            split
            case isTrue hdb => exact ⟨fun _ _ _ h => Response.noConfusion h, fun h => Response.noConfusion h⟩
            case isFalse hdb =>
              exact ⟨fun _ _ _ h => Response.noConfusion h,
                     fun _ => ⟨rfl, ⟨_, rfl⟩⟩⟩

/-- Claim C6 amended witness: a concrete committed order with a failing
publish yields the 500 outcome with the order appended. -/
theorem create_order_publish_failure_behavior_witness :
    statusCode (create_order ⟨[⟨1, 5, 10⟩], []⟩
        (some ⟨some 1, some 3, some 2⟩) 42 0 ⟨false, none, true⟩).2 = 500
    ∧ ∃ o : Order,
        (create_order ⟨[⟨1, 5, 10⟩], []⟩
            (some ⟨some 1, some 3, some 2⟩) 42 0 ⟨false, none, true⟩).1.orders
          = ([] : List Order) ++ [o] :=
  (create_order_publish_failure_behavior ⟨[⟨1, 5, 10⟩], []⟩
      (some ⟨some 1, some 3, some 2⟩) 42 0 ⟨false, none, true⟩ rfl).2 (by decide)

/-- Claim C7: when the conditional decrement affects zero rows (the row
lock notwithstanding, the write-time stock fell below the quantity), the
unit of work aborts with the `ConcurrencyConflictError` `BadRequest`
(message at lines 66-67) surfaced as a 400 client error, and the store is
unchanged. -/
theorem create_order_conflict_client_error (store : Store)
    (pid uid newId now : Nat) (q v : Int) (faults : Faults) (p : Product)
    (hfind : findProduct store.products pid = some p)
    (hstock : ¬ p.stock < q)
    (hws : faults.writeStock = some v)
    (hv : v < q) :
    create_order store (some ⟨some pid, some q, some uid⟩) newId now faults
      = (store, .clientError .inventoryUpdateFailed)
    ∧ statusCode (.clientError .inventoryUpdateFailed) = 400
    ∧ errorBody (.clientError .inventoryUpdateFailed)
      = some "Inventory update failed - stock may have changed" := by
  refine ⟨?_, rfl, rfl⟩
  simp [create_order, hfind, hstock, hws,
    updateStock_setStock_count_zero store.products pid q v hv]

/-- Claim C7 witness: stock read as 5, write-time stock 2, quantity 3: the
decrement affects zero rows and the caller gets the 400 conflict error
with the store unchanged. -/
theorem create_order_conflict_client_error_witness :
    create_order ⟨[⟨1, 5, 10⟩], []⟩ (some ⟨some 1, some 3, some 2⟩) 42 0
        ⟨false, some 2, false⟩
      = (⟨[⟨1, 5, 10⟩], []⟩, .clientError .inventoryUpdateFailed)
    ∧ statusCode (.clientError .inventoryUpdateFailed) = 400
    ∧ errorBody (.clientError .inventoryUpdateFailed)
      = some "Inventory update failed - stock may have changed" :=
  create_order_conflict_client_error ⟨[⟨1, 5, 10⟩], []⟩ 1 2 42 0 3 2
    ⟨false, some 2, false⟩ ⟨1, 5, 10⟩ rfl (by decide) rfl (by decide)

/-- Claim C8, scenario A: stock 5, price 10, one request of quantity 3:
success with the issued order id, order status `created`, total price 30,
resulting stock 2. -/
theorem create_order_scenario_A :
    create_order ⟨[⟨1, 5, 10⟩], []⟩ (some ⟨some 1, some 3, some 7⟩) 42 0 noFaults
      = (⟨[⟨1, 2, 10⟩], [⟨42, 7, 1, 3, 30, "created", 0⟩]⟩,
         .created 42 "created" "Order successfully created")
    ∧ statusCode (.created 42 "created" "Order successfully created") = 201 := by
  decide

/-- Claim C9: a request whose product exists but whose stock is below the
quantity aborts with `InsufficientStockError` reporting the available and
requested quantities in the message, surfaced as 400, with the store
unchanged. -/
theorem create_order_insufficient_stock (store : Store)
    (pid uid newId now : Nat) (q : Int) (faults : Faults) (p : Product)
    (hfind : findProduct store.products pid = some p)
    (hstock : p.stock < q) :
    create_order store (some ⟨some pid, some q, some uid⟩) newId now faults
      = (store, .clientError (.insufficientStock pid p.stock q))
    ∧ statusCode (.clientError (.insufficientStock pid p.stock q)) = 400
    ∧ errorBody (.clientError (.insufficientStock pid p.stock q))
      = some ("Insufficient stock for product " ++ toString pid ++ ". Available: "
          ++ toString p.stock ++ ", Requested: " ++ toString q) := by
  refine ⟨?_, rfl, rfl⟩
  simp [create_order, hfind, hstock]

/-- Claim C9 witness: stock 2, quantity 5: the 400 insufficient-stock
error reports available 2 and requested 5 and the stock stays 2. -/
theorem create_order_insufficient_stock_witness :
    create_order ⟨[⟨1, 2, 10⟩], []⟩ (some ⟨some 1, some 5, some 2⟩) 42 0 noFaults
      = (⟨[⟨1, 2, 10⟩], []⟩, .clientError (.insufficientStock 1 2 5))
    ∧ statusCode (.clientError (.insufficientStock 1 2 5)) = 400
    ∧ errorBody (.clientError (.insufficientStock 1 2 5))
      = some ("Insufficient stock for product " ++ toString (1 : Nat)
          ++ ". Available: " ++ toString (2 : Int) ++ ", Requested: "
          ++ toString (5 : Int)) :=
  create_order_insufficient_stock ⟨[⟨1, 2, 10⟩], []⟩ 1 2 42 0 5 noFaults
    ⟨1, 2, 10⟩ rfl (by decide)

/-- Claim C10: every control path yields exactly one response with a fixed
status code by outcome class: success is 201 with the fixed status and
message, every `BadRequest` is 400 with its error message, and the
database and unexpected failures are 500 with a fixed generic message
carrying no internal detail. -/
theorem create_order_response_classification (store : Store)
    (body : Option Payload) (newId now : Nat) (faults : Faults) :
    (∃ oid, (create_order store body newId now faults).2
          = .created oid "created" "Order successfully created"
        ∧ statusCode (create_order store body newId now faults).2 = 201)
    ∨ (∃ e, (create_order store body newId now faults).2 = .clientError e
        ∧ statusCode (create_order store body newId now faults).2 = 400
        ∧ errorBody (create_order store body newId now faults).2
            = some (badReqMessage e))
    ∨ ((create_order store body newId now faults).2 = .dbError
        ∧ statusCode (create_order store body newId now faults).2 = 500
        ∧ errorBody (create_order store body newId now faults).2
            = some "Database error occurred during order processing")
    ∨ ((create_order store body newId now faults).2 = .unexpectedError
        ∧ statusCode (create_order store body newId now faults).2 = 500
        ∧ errorBody (create_order store body newId now faults).2
            = some "Order processing failed") := by
  cases body with
  | none => exact Or.inr (Or.inl ⟨.missingOrderData, rfl, rfl, rfl⟩)
  | some od =>
    simp only [create_order]
    split
    case isFalse hreq => exact Or.inr (Or.inl ⟨.missingRequiredFields, rfl, rfl, rfl⟩)
    case isTrue hreq =>
      split
      case h_1 => exact Or.inr (Or.inl ⟨_, rfl, rfl, rfl⟩)
      case h_2 product hf =>
        split
        case isTrue hstock => exact Or.inr (Or.inl ⟨_, rfl, rfl, rfl⟩)
        case isFalse hstock =>
          split
          case isTrue hcnt => exact Or.inr (Or.inl ⟨_, rfl, rfl, rfl⟩)
          case isFalse hcnt =>
            split
            case isTrue hdb => exact Or.inr (Or.inr (Or.inl ⟨rfl, rfl, rfl⟩))
            case isFalse hdb =>
              split
              case isTrue hpub => exact Or.inr (Or.inr (Or.inr ⟨rfl, rfl, rfl⟩))
              case isFalse hpub => exact Or.inl ⟨newId, rfl, rfl⟩
